import Mathlib

/-!
Shallow embedding of `server/app.py` (recipe-matcher backend): the
signature/dedup helper, the `/api/suggest` pipeline, the relational state
(Device, Recipe, SavedRecipe, User) and the `/api/save`, `/api/history`,
`/api/clear` and `/auth/login` handlers, together with proofs of the
specified properties.

Strings are modelled over their character lists so that all operations
compute by kernel reduction.  Python truthiness (`x or default`) is made
explicit, and the request-scoped database session is modelled by explicit
state passing; `commit` points are where the returned state is updated and
`rollback` returns the last committed state.  Storage faults (a commit
raising, or losing a race on the unique `(device, recipe)` constraint) are
modelled by an explicit fault oracle, since a sequential embedding has no
other source of `IntegrityError`.
-/

/-- Python `s.lower()` (simple case folding over the characters). -/
def pyLower (s : String) : String := (s.data.map Char.toLower).asString

/-- Python `s.strip()`: drop whitespace from both ends. -/
def pyStrip (s : String) : String :=
  ((s.data.dropWhile Char.isWhitespace).reverse.dropWhile Char.isWhitespace).reverse.asString

/-- Python slicing `s[:n]` (by code points). -/
def pyTake (s : String) (n : Nat) : String := (s.data.take n).asString

/-- Python `", ".join l` style joining. -/
def pyJoin (sep : String) : List String → String
  | [] => ""
  | [s] => s
  | s :: rest => s ++ sep ++ pyJoin sep rest

/-- Python `(o or d)` for an optional string: `None` and `""` are falsy. -/
def pyOrStr (o : Option String) (d : String) : String :=
  match o with
  | none => d
  | some s => if s = "" then d else s

/-- Python `(o or d)` for an optional integer: `None` and `0` are falsy. -/
def pyOrInt (o : Option Int) (d : Int) : Int :=
  match o with
  | none => d
  | some n => if n = 0 then d else n

/-- A recipe-shaped JSON object as received from a client or from the
completion provider: every field may be absent. -/
structure RecipeIn where
  title : Option String
  desc : Option String
  time : Option Int
  serves : Option Int
  level : Option String
  img : Option String
  deriving DecidableEq

/-- The empty JSON object `{}` used by `save` when no recipe was sent. -/
def emptyRecipeIn : RecipeIn := ⟨none, none, none, none, none, none⟩

/-- A fully-populated recipe candidate (the dict built by the handlers). -/
structure RecipeFields where
  title : String
  desc : String
  time : Int
  serves : Int
  level : String
  img : String
  deriving DecidableEq

/-- `app.py` `_signature_of`: lower-case the stripped title/desc/img
(missing field -> empty string), join with `"|"`, truncate to 191. -/
def _signature_of (title desc img : Option String) : String :=
  pyTake (pyLower (pyStrip (pyOrStr title "")) ++ "|" ++
          pyLower (pyStrip (pyOrStr desc "")) ++ "|" ++
          pyLower (pyStrip (pyOrStr img ""))) 191

/-- The signature function as the specification words it (section 4.1 /
claim text): lower-case each of the three fields (missing -> empty
string), concatenate with the separator, truncate to 191 — with no
whitespace stripping.  Stated separately so it can be compared with
`_signature_of`. -/
def signature_claim (title desc img : Option String) : String :=
  pyTake (pyLower (pyOrStr title "") ++ "|" ++
          pyLower (pyOrStr desc "") ++ "|" ++
          pyLower (pyOrStr img "")) 191

/-- The signature function as the specification words it, amended with the
stripping the code performs. -/
def signature_spec_trimmed (title desc img : Option String) : String :=
  pyTake (pyLower (pyStrip (pyOrStr title "")) ++ "|" ++
          pyLower (pyStrip (pyOrStr desc "")) ++ "|" ++
          pyLower (pyStrip (pyOrStr img ""))) 191

/-- `app.py` `demo_recipes`: the deterministic local fallback generator. -/
def demo_recipes (ings : List String) : List RecipeFields :=
  let joined := pyJoin ", " (ings.take 3)
  let base := if joined = "" then "simple pantry items" else joined
  [ ⟨"Quick Skillet Bowl", "One-pan weeknight bowl using " ++ base ++ ".",
      22, 3, "Easy", "https://placehold.co/800x500?text=Recipe+Photo"⟩,
    ⟨"Creamy Pasta Toss", "Comforting pasta with " ++ base ++ ".",
      28, 2, "Easy", "https://placehold.co/800x500?text=Tasty+Dish"⟩,
    ⟨"Veggie Stir-Fry", "Colorful stir-fry built around " ++ base ++ ".",
      18, 2, "Medium", "https://placehold.co/800x500?text=Yum"⟩ ]

/-- What the handler observes of the provider call: no client configured,
the call or JSON parsing raised, or a parsed payload whose `recipes` key
may be absent. -/
inductive ProviderOutcome where
  | noClient
  | failure
  | parsed (recipes : Option (List RecipeIn))
  deriving DecidableEq

/-- The per-candidate defaulting/truncation `suggest` applies to each
parsed provider recipe. -/
def clamp_provider_recipe (r : RecipeIn) : RecipeFields :=
  { title := pyTake (pyOrStr r.title "Tasty Dish") 200
    desc := pyOrStr r.desc "A quick, pantry-friendly idea."
    time := pyOrInt r.time 20
    serves := pyOrInt r.serves 2
    level := pyTake (pyOrStr r.level "Easy") 16
    img := pyOrStr r.img "https://placehold.co/800x500?text=Recipe" }

/-- The `while len(recipes) < 3` padding loop: append fallback candidates
`fb[len rs]`, `fb[len rs + 1]`, ... until three are present (`rs` has at
most three elements, `fb` exactly three). -/
def pad_to_three (rs fb : List RecipeFields) : List RecipeFields :=
  rs ++ fb.drop rs.length

/-- JSON response of `/api/suggest`. -/
structure SuggestResp where
  status : Nat
  recipes : List RecipeFields
  error : Option String
  deriving DecidableEq

/-- `app.py` `suggest` (`POST /api/suggest`): strip and filter the
ingredient strings, reject an empty list with 400, otherwise produce three
candidates from the provider outcome with local fallback. -/
def suggest (ings : List String) (outcome : ProviderOutcome) : SuggestResp :=
  let ingredients := (ings.map pyStrip).filter (fun s => s ≠ "")
  if ingredients = [] then ⟨400, [], some "No ingredients provided."⟩
  else
    match outcome with
    | .noClient => ⟨200, demo_recipes ingredients, none⟩
    | .failure => ⟨200, demo_recipes ingredients, none⟩
    | .parsed payload =>
      let recipes := ((payload.getD []).take 3).map clamp_provider_recipe
      ⟨200, pad_to_three recipes (demo_recipes ingredients), none⟩

/-- A row of `devices`: surrogate key plus the unique external id.
(`created_at` is unused by any handler and omitted.) -/
structure DeviceRow where
  id : Nat
  device_id : String
  deriving DecidableEq

/-- A row of `recipes`. -/
structure RecipeRow where
  id : Nat
  title : String
  desc : String
  time : Int
  serves : Int
  level : String
  img : String
  signature : String
  deriving DecidableEq

/-- A row of `saved_recipes`; `created_at` is a logical timestamp used for
the recency ordering of `/api/history`. -/
structure SavedRow where
  id : Nat
  device_id_fk : Nat
  recipe_id_fk : Nat
  created_at : Nat
  deriving DecidableEq

/-- A row of `users`. -/
structure UserRow where
  id : Nat
  name : String
  email : String
  password_hash : String
  deriving DecidableEq

/-- The committed relational state, plus the autoincrement counters and a
logical clock supplying `created_at` values. -/
structure DB where
  devices : List DeviceRow
  recipes : List RecipeRow
  saved : List SavedRow
  users : List UserRow
  nextDevice : Nat
  nextRecipe : Nat
  nextSaved : Nat
  clock : Nat
  deriving DecidableEq

/-- The freshly created database. -/
def db0 : DB := ⟨[], [], [], [], 1, 1, 1, 0⟩

/-- `app.py` `_ensure_device`: `None` for a falsy device id, otherwise the
existing row, or a freshly inserted and committed one. -/
def _ensure_device (db : DB) (device_id : Option String) : Option (DeviceRow × DB) :=
  match device_id with
  | none => none
  | some s =>
    if s = "" then none
    else
      match db.devices.find? (fun d => d.device_id == s) with
      | some d => some (d, db)
      | none =>
        let d : DeviceRow := ⟨db.nextDevice, s⟩
        some (d, { db with devices := db.devices ++ [d], nextDevice := db.nextDevice + 1 })

/-- The defaulted dict `r` that `save` builds from the request's recipe. -/
def normalize_recipe (recipe_in : RecipeIn) : RecipeFields :=
  { title := pyTake (pyOrStr recipe_in.title "Recipe") 200
    desc := pyOrStr recipe_in.desc ""
    time := pyOrInt recipe_in.time 20
    serves := pyOrInt recipe_in.serves 2
    level := pyTake (pyOrStr recipe_in.level "Easy") 16
    img := pyOrStr recipe_in.img "" }

/-- JSON response of `/api/save` (`recipe_id` is present only where the
handler includes it). -/
structure SaveResp where
  status : Nat
  saved : Option Bool
  message : Option String
  recipe_id : Option Nat
  error : Option String
  deriving DecidableEq

/-- Storage faults injected at the commit points of `save`: none, a
generic exception while committing the new recipe, a generic exception
while committing the link, or losing a race on the unique
`(device, recipe)` constraint (a concurrent request committed the same
link between the handler's check and its insert). -/
inductive StorageFault where
  | noFault
  | recipeCommitFails
  | linkCommitFails
  | raceOnLink
  deriving DecidableEq

/-- Append a committed `SavedRecipe` link. -/
def addLink (db : DB) (dev_fk rec_fk : Nat) : DB :=
  { db with saved := db.saved ++ [⟨db.nextSaved, dev_fk, rec_fk, db.clock⟩],
            nextSaved := db.nextSaved + 1, clock := db.clock + 1 }

/-- The unique constraint `uix_device_recipe`: committing a `SavedRecipe`
insert raises an `IntegrityError` exactly when the `(device, recipe)` pair
is already present. -/
def link_constraint_violated (db : DB) (dev_fk rec_fk : Nat) : Bool :=
  db.saved.any (fun l => l.device_id_fk == dev_fk && l.recipe_id_fk == rec_fk)

/-- The link half of `save`: query the link, answer "Already saved" when
present, otherwise insert it, converting an `IntegrityError` on commit
into the no-`recipe_id` "Already saved" answer (rolling the insert back)
and a generic commit failure into a rolled-back 500.  Under `raceOnLink`
the concurrent request's identical link commits first (`addLink`), so this
request's insert trips the unique constraint. -/
def link_phase (db : DB) (d : DeviceRow) (recRow : RecipeRow) (fault : StorageFault) :
    SaveResp × DB :=
  match db.saved.find? (fun l => l.device_id_fk == d.id && l.recipe_id_fk == recRow.id) with
  | some _ => (⟨200, some false, some "Already saved", some recRow.id, none⟩, db)
  | none =>
    match fault with
    | .linkCommitFails => (⟨500, none, none, none, some "save_failed"⟩, db)
    | .raceOnLink =>
      if link_constraint_violated (addLink db d.id recRow.id) d.id recRow.id
      then (⟨200, some false, some "Already saved", none, none⟩, addLink db d.id recRow.id)
      else (⟨200, some true, none, some recRow.id, none⟩,
            addLink (addLink db d.id recRow.id) d.id recRow.id)
    | _ =>
      if link_constraint_violated db d.id recRow.id
      then (⟨200, some false, some "Already saved", none, none⟩, db)
      else (⟨200, some true, none, some recRow.id, none⟩, addLink db d.id recRow.id)

/-- The recipe half of `save`: default the recipe fields, look the recipe
up by signature, create and commit it if absent, then run the link
phase. -/
def save_recipe_phase (db1 : DB) (d : DeviceRow) (recipe_in : RecipeIn)
    (fault : StorageFault) : SaveResp × DB :=
  let r := normalize_recipe recipe_in
  let sig := _signature_of (some r.title) (some r.desc) (some r.img)
  match db1.recipes.find? (fun rw => rw.signature == sig) with
  | some recRow => link_phase db1 d recRow fault
  | none =>
    match fault with
    | .recipeCommitFails => (⟨500, none, none, none, some "save_failed"⟩, db1)
    | _ =>
      let recRow : RecipeRow :=
        ⟨db1.nextRecipe, r.title, r.desc, r.time, r.serves, r.level, r.img, sig⟩
      link_phase { db1 with recipes := db1.recipes ++ [recRow],
                            nextRecipe := db1.nextRecipe + 1 } d recRow fault

/-- `app.py` `save` (`POST /api/save`): resolve (or create and commit) the
device, then run the recipe and link phases. -/
def save (db : DB) (device_id : Option String) (recipe_payload : Option RecipeIn)
    (fault : StorageFault) : SaveResp × DB :=
  let recipe_in := recipe_payload.getD emptyRecipeIn
  match _ensure_device db device_id with
  | none => (⟨400, none, none, none, some "missing device_id"⟩, db)
  | some (d, db1) => save_recipe_phase db1 d recipe_in fault

/-- The projection of a joined save row returned by `/api/history`: the
public recipe fields only. -/
structure HistEntry where
  id : Nat
  title : String
  desc : String
  time : Int
  serves : Int
  level : String
  img : String
  deriving DecidableEq

/-- The rows `/api/history` reads for a known device: the device's links,
newest first by `created_at`, limited to 50. -/
def history_rows (db : DB) (d : DeviceRow) : List SavedRow :=
  (((db.saved.filter (fun l => l.device_id_fk == d.id)).mergeSort
      (fun a b => b.created_at ≤ a.created_at)).take 50)

/-- `app.py` `history` (`GET /api/history`): unknown or absent device id
gives the empty list; otherwise the device's newest-first links, limited
to 50, joined to their recipes and projected. -/
def history (db : DB) (device_id : Option String) : List HistEntry :=
  match device_id with
  | none => []
  | some s =>
    match db.devices.find? (fun d => d.device_id == s) with
    | none => []
    | some d =>
      (history_rows db d).filterMap (fun l =>
        (db.recipes.find? (fun rw => rw.id == l.recipe_id_fk)).map (fun rw =>
          ⟨rw.id, rw.title, rw.desc, rw.time, rw.serves, rw.level, rw.img⟩))

/-- `app.py` `clear_saved` (`POST /api/clear`): falsy or unknown device id
deletes nothing; otherwise bulk-delete the device's links and report the
count. -/
def clear_saved (db : DB) (device_id : Option String) : Nat × DB :=
  match device_id with
  | none => (0, db)
  | some s =>
    if s = "" then (0, db)
    else
      match db.devices.find? (fun d => d.device_id == s) with
      | none => (0, db)
      | some d =>
        let deleted := (db.saved.filter (fun l => l.device_id_fk == d.id)).length
        (deleted, { db with saved := db.saved.filter (fun l => !(l.device_id_fk == d.id)) })

/-- JSON response of `/auth/login` (the success body's user object is
represented by the user's id). -/
structure LoginResp where
  status : Nat
  ok : Bool
  error : Option String
  user_id : Option Nat
  deriving DecidableEq

/-- `app.py` `auth_login` (`POST /auth/login`): normalize the email, look
the user up, verify the password hash (the werkzeug check is an opaque
collaborator, passed in as `checkHash`); any failure answers the one
generic 401. -/
def auth_login (db : DB) (checkHash : String → String → Bool)
    (email0 password0 : Option String) : LoginResp :=
  let email := pyLower (pyStrip (pyOrStr email0 ""))
  let password := pyOrStr password0 ""
  match db.users.find? (fun u => u.email == email) with
  | none => ⟨401, false, some "invalid_credentials", none⟩
  | some u =>
    if checkHash u.password_hash password then ⟨200, true, none, some u.id⟩
    else ⟨401, false, some "invalid_credentials", none⟩

/-! ### Generic facts about the Python string helpers -/

theorem pyTake_length_le (s : String) (n : Nat) : (pyTake s n).length ≤ n :=
  List.length_take_le n s.data

theorem asString_ne_empty {l : List Char} (h : l ≠ []) : l.asString ≠ "" := by
  intro he
  exact h (by simpa using congrArg String.data he)

theorem string_data_ne_nil {s : String} (h : s ≠ "") : s.data ≠ [] := by
  intro hd
  apply h
  cases s
  simp_all [String.ext_iff]

theorem pyOrStr_ne_empty (o : Option String) (d : String) (hd : d ≠ "") :
    pyOrStr o d ≠ "" := by
  unfold pyOrStr
  cases o with
  | none => exact hd
  | some s =>
    by_cases h : s = "" <;> simp [h, hd]

theorem pyTake_ne_empty {s : String} (n : Nat) (hs : s ≠ "") (hn : 0 < n) :
    pyTake s n ≠ "" := by
  apply asString_ne_empty
  rw [Ne, List.take_eq_nil_iff]
  push_neg
  exact ⟨by omega, string_data_ne_nil hs⟩

/-! ### Claim C2 — the signature function -/

/-- Claim C2 as stated is refuted: the claim (and section 4.1) describe the
signature as the lower-cased fields joined and truncated, with no
whitespace stripping, but `_signature_of` strips each field first: on
title `" A "` the code produces `"a||"` while the claim's wording gives
`" a ||"`. -/
theorem c2_signature_counterexample :
    _signature_of (some " A ") none none ≠ signature_claim (some " A ") none none ∧
    _signature_of (some " A ") none none = "a||" ∧
    signature_claim (some " A ") none none = " a ||" := by
  refine ⟨?_, ?_, ?_⟩ <;> decide

/-- Claim C2 (amended): the signature is the whitespace-stripped,
lower-cased title/desc/img (missing field -> empty string) joined with the
fixed separator and truncated to at most 191 characters; it is a
deterministic pure function of the three fields. -/
theorem c2_signature_spec :
    (∀ t d i, _signature_of t d i = signature_spec_trimmed t d i) ∧
    (∀ t d i, (_signature_of t d i).length ≤ 191) ∧
    (∀ t1 d1 i1 t2 d2 i2, t1 = t2 → d1 = d2 → i1 = i2 →
      _signature_of t1 d1 i1 = _signature_of t2 d2 i2) := by
  refine ⟨fun t d i => rfl, fun t d i => pyTake_length_le _ 191, ?_⟩
  intro t1 d1 i1 t2 d2 i2 ht hd hi
  rw [ht, hd, hi]

/-- Witness for C2's amended theorem at concrete inputs. -/
theorem c2_signature_spec_witness :
    _signature_of (some "Egg") (some "Fried") none =
      _signature_of (some "Egg") (some "Fried") none ∧
    (_signature_of (some "Egg") (some "Fried") none).length ≤ 191 :=
  ⟨c2_signature_spec.2.2 (some "Egg") (some "Fried") none (some "Egg") (some "Fried") none
      rfl rfl rfl,
   c2_signature_spec.2.1 (some "Egg") (some "Fried") none⟩

/-! ### Claims C3/C4 — the suggest pipeline -/

theorem demo_recipes_length (ings : List String) : (demo_recipes ings).length = 3 := rfl

theorem demo_recipes_bounds (ings : List String) :
    ∀ r ∈ demo_recipes ings,
      r.title ≠ "" ∧ r.title.length ≤ 200 ∧ r.level.length ≤ 16 ∧
      1 ≤ r.serves ∧ 15 ≤ r.time ∧ r.time ≤ 40 := by
  intro r hr
  simp only [demo_recipes, List.mem_cons, List.not_mem_nil, or_false] at hr
  rcases hr with h | h | h <;> subst h
  · exact ⟨(by decide : ("Quick Skillet Bowl" : String) ≠ ""),
      (by decide : ("Quick Skillet Bowl" : String).length ≤ 200),
      (by decide : ("Easy" : String).length ≤ 16),
      (by decide : (1 : Int) ≤ 3), (by decide : (15 : Int) ≤ 22),
      (by decide : (22 : Int) ≤ 40)⟩
  · exact ⟨(by decide : ("Creamy Pasta Toss" : String) ≠ ""),
      (by decide : ("Creamy Pasta Toss" : String).length ≤ 200),
      (by decide : ("Easy" : String).length ≤ 16),
      (by decide : (1 : Int) ≤ 2), (by decide : (15 : Int) ≤ 28),
      (by decide : (28 : Int) ≤ 40)⟩
  · exact ⟨(by decide : ("Veggie Stir-Fry" : String) ≠ ""),
      (by decide : ("Veggie Stir-Fry" : String).length ≤ 200),
      (by decide : ("Medium" : String).length ≤ 16),
      (by decide : (1 : Int) ≤ 2), (by decide : (15 : Int) ≤ 18),
      (by decide : (18 : Int) ≤ 40)⟩

theorem clamp_provider_recipe_bounds (r : RecipeIn) :
    (clamp_provider_recipe r).title ≠ "" ∧
    (clamp_provider_recipe r).title.length ≤ 200 ∧
    (clamp_provider_recipe r).level.length ≤ 16 := by
  refine ⟨?_, pyTake_length_le _ 200, pyTake_length_le _ 16⟩
  exact pyTake_ne_empty 200 (pyOrStr_ne_empty _ _ (by decide)) (by omega)

theorem pad_to_three_length (rs fb : List RecipeFields)
    (h : rs.length ≤ 3) (hfb : fb.length = 3) :
    (pad_to_three rs fb).length = 3 := by
  simp only [pad_to_three, List.length_append, List.length_drop, hfb]
  omega

/-- Claim C3 as stated is refuted: the parsed provider candidates are not
clamped to a sane time range nor to `serves ≥ 1`; a provider payload with
`serves = -1` flows through to the response unchanged. -/
theorem c3_suggest_counterexample :
    ¬ (∀ r ∈ (suggest ["egg"]
          (ProviderOutcome.parsed (some [⟨none, none, none, some (-1), none, none⟩]))).recipes,
        1 ≤ r.serves) := by
  decide

/-- Claim C3 (amended): every candidate returned by `/api/suggest` — local
or provider-parsed — has a non-empty title of at most 200 characters and a
level of at most 16 characters, and the local fallback candidates also
have `serves ≥ 1` and a time in a sane range; but time and serves of
provider-parsed candidates are only defaulted (20 resp. 2 when missing or
zero), never range-clamped. -/
theorem c3_suggest_bounds :
    (∀ ings outcome, ∀ r ∈ (suggest ings outcome).recipes,
      r.title ≠ "" ∧ r.title.length ≤ 200 ∧ r.level.length ≤ 16) ∧
    (∀ ings, ∀ r ∈ demo_recipes ings,
      1 ≤ r.serves ∧ 15 ≤ r.time ∧ r.time ≤ 40) ∧
    (∀ r : RecipeIn, (clamp_provider_recipe r).time = pyOrInt r.time 20 ∧
      (clamp_provider_recipe r).serves = pyOrInt r.serves 2) := by
  refine ⟨?_, ?_, fun r => ⟨rfl, rfl⟩⟩
  · intro ings outcome r hr
    unfold suggest at hr
    set ingredients := (ings.map pyStrip).filter (fun s => s ≠ "") with hing
    by_cases hempty : ingredients = []
    · simp [hempty] at hr
    · simp only [if_neg hempty] at hr
      cases outcome with
      | noClient =>
        simp only at hr
        obtain ⟨h1, h2, h3, _, _, _⟩ := demo_recipes_bounds ingredients r hr
        exact ⟨h1, h2, h3⟩
      | failure =>
        simp only at hr
        obtain ⟨h1, h2, h3, _, _, _⟩ := demo_recipes_bounds ingredients r hr
        exact ⟨h1, h2, h3⟩
      | parsed payload =>
        simp only [pad_to_three, List.mem_append] at hr
        rcases hr with hr | hr
        · obtain ⟨x, _, hx⟩ := List.mem_map.mp hr
          rw [← hx]
          exact clamp_provider_recipe_bounds x
        · obtain ⟨h1, h2, h3, _, _, _⟩ :=
            demo_recipes_bounds ingredients r (List.mem_of_mem_drop hr)
          exact ⟨h1, h2, h3⟩
  · intro ings r hr
    obtain ⟨_, _, _, h4, h5, h6⟩ := demo_recipes_bounds ings r hr
    exact ⟨h4, h5, h6⟩

/-- Witness for C3's amended theorem at concrete inputs. -/
theorem c3_suggest_bounds_witness :
    ((⟨"Quick Skillet Bowl", "One-pan weeknight bowl using egg.", 22, 3, "Easy",
        "https://placehold.co/800x500?text=Recipe+Photo"⟩ : RecipeFields).title ≠ "" ∧
      (⟨"Quick Skillet Bowl", "One-pan weeknight bowl using egg.", 22, 3, "Easy",
        "https://placehold.co/800x500?text=Recipe+Photo"⟩ : RecipeFields).title.length ≤ 200 ∧
      (⟨"Quick Skillet Bowl", "One-pan weeknight bowl using egg.", 22, 3, "Easy",
        "https://placehold.co/800x500?text=Recipe+Photo"⟩ : RecipeFields).level.length ≤ 16) ∧
    (1 ≤ (⟨"Quick Skillet Bowl", "One-pan weeknight bowl using egg.", 22, 3, "Easy",
        "https://placehold.co/800x500?text=Recipe+Photo"⟩ : RecipeFields).serves ∧
      15 ≤ (⟨"Quick Skillet Bowl", "One-pan weeknight bowl using egg.", 22, 3, "Easy",
        "https://placehold.co/800x500?text=Recipe+Photo"⟩ : RecipeFields).time ∧
      (⟨"Quick Skillet Bowl", "One-pan weeknight bowl using egg.", 22, 3, "Easy",
        "https://placehold.co/800x500?text=Recipe+Photo"⟩ : RecipeFields).time ≤ 40) :=
  ⟨c3_suggest_bounds.1 ["egg"] ProviderOutcome.noClient
      ⟨"Quick Skillet Bowl", "One-pan weeknight bowl using egg.", 22, 3, "Easy",
        "https://placehold.co/800x500?text=Recipe+Photo"⟩ (by decide),
   c3_suggest_bounds.2.1 ["egg"]
      ⟨"Quick Skillet Bowl", "One-pan weeknight bowl using egg.", 22, 3, "Easy",
        "https://placehold.co/800x500?text=Recipe+Photo"⟩ (by decide)⟩

/-- Claim C4: for every request whose ingredient list is non-empty after
trimming and filtering, `/api/suggest` returns exactly three candidates
with status 200 and no error, for every provider outcome (no client,
total failure, or any parsed payload); with no provider configured the
response is exactly the three local fallback candidates, and a total
failure produces the same response. -/
theorem c4_suggest_always_three :
    (∀ ings outcome, ((ings.map pyStrip).filter (fun s => s ≠ "")) ≠ [] →
      (suggest ings outcome).status = 200 ∧
      (suggest ings outcome).recipes.length = 3 ∧
      (suggest ings outcome).error = none) ∧
    (∀ ings, ((ings.map pyStrip).filter (fun s => s ≠ "")) ≠ [] →
      suggest ings ProviderOutcome.noClient =
        ⟨200, demo_recipes ((ings.map pyStrip).filter (fun s => s ≠ "")), none⟩ ∧
      suggest ings ProviderOutcome.failure = suggest ings ProviderOutcome.noClient) := by
  constructor
  · intro ings outcome hne
    unfold suggest
    simp only [if_neg hne]
    cases outcome with
    | noClient => exact ⟨rfl, demo_recipes_length _, rfl⟩
    | failure => exact ⟨rfl, demo_recipes_length _, rfl⟩
    | parsed payload =>
      refine ⟨rfl, ?_, rfl⟩
      apply pad_to_three_length
      · simp only [List.length_map]
        exact List.length_take_le 3 _
      · exact demo_recipes_length _
  · intro ings hne
    unfold suggest
    simp only [if_neg hne]
    exact ⟨by trivial, by trivial⟩

/-- Witness for C4 at a concrete input. -/
theorem c4_suggest_always_three_witness :
    (suggest [" egg ", "", "rice"] ProviderOutcome.failure).recipes.length = 3 :=
  (c4_suggest_always_three.1 [" egg ", "", "rice"] ProviderOutcome.failure (by decide)).2.1

/-! ### Claim C7 — /api/clear -/

theorem filter_of_filter_not {α : Type} (p : α → Bool) (l : List α) :
    (l.filter (fun a => !(p a))).filter p = [] := by
  induction l with
  | nil => rfl
  | cons a l ih =>
    by_cases h : p a = true
    · simp [List.filter_cons, h, ih]
    · simp only [Bool.not_eq_true] at h
      simp [List.filter_cons, h, ih]

/-- Claim C7: `/api/clear` deletes all of the device's links in one bulk
filter and reports their count; a falsy or unknown device id deletes
nothing and reports zero, and a second identical call always reports
zero. -/
theorem c7_clear_idempotent :
    (∀ db, clear_saved db none = (0, db)) ∧
    (∀ db s, db.devices.find? (fun d => d.device_id == s) = none →
      clear_saved db (some s) = (0, db)) ∧
    (∀ db did, (clear_saved (clear_saved db did).2 did).1 = 0) ∧
    (∀ db s d, s ≠ "" → db.devices.find? (fun d2 => d2.device_id == s) = some d →
      (clear_saved db (some s)).1 =
        (db.saved.filter (fun l => l.device_id_fk == d.id)).length ∧
      (clear_saved db (some s)).2.saved =
        db.saved.filter (fun l => !(l.device_id_fk == d.id)) ∧
      ((clear_saved db (some s)).2.saved.filter (fun l => l.device_id_fk == d.id)) = []) := by
  refine ⟨fun db => rfl, ?_, ?_, ?_⟩
  · intro db s hf
    unfold clear_saved
    by_cases hs : s = ""
    · simp [hs]
    · simp [hs, hf]
  · intro db did
    match did with
    | none => rfl
    | some s =>
      by_cases hs : s = ""
      · simp [clear_saved, hs]
      · cases hf : db.devices.find? (fun d => d.device_id == s) with
        | none => simp [clear_saved, hs, hf]
        | some d => simp [clear_saved, hs, hf, filter_of_filter_not]
  · intro db s d hs hf
    simp [clear_saved, hs, hf, filter_of_filter_not]

/-- Witness for C7 at concrete inputs: one device with one link, cleared
twice. -/
theorem c7_clear_idempotent_witness :
    (clear_saved (clear_saved ⟨[⟨1, "d1"⟩], [], [⟨1, 1, 1, 0⟩], [], 2, 1, 2, 1⟩
        (some "d1")).2 (some "d1")).1 = 0 ∧
    (clear_saved ⟨[⟨1, "d1"⟩], [], [⟨1, 1, 1, 0⟩], [], 2, 1, 2, 1⟩ (some "d1")).1 =
      (([⟨1, 1, 1, 0⟩] : List SavedRow).filter (fun l => l.device_id_fk == 1)).length :=
  ⟨c7_clear_idempotent.2.2.1 ⟨[⟨1, "d1"⟩], [], [⟨1, 1, 1, 0⟩], [], 2, 1, 2, 1⟩ (some "d1"),
   (c7_clear_idempotent.2.2.2 ⟨[⟨1, "d1"⟩], [], [⟨1, 1, 1, 0⟩], [], 2, 1, 2, 1⟩ "d1" ⟨1, "d1"⟩
      (by decide) (by decide)).1⟩

/-! ### Claim C8 — /auth/login account enumeration -/

/-- Claim C8: a login with a wrong password for an existing (normalized)
email and a login with a nonexistent normalized email produce identical
responses — the one generic `invalid_credentials` 401 body. -/
theorem c8_login_no_enumeration (db : DB) (checkHash : String → String → Bool)
    (e1 p1 e2 p2 : Option String)
    (hexists : (db.users.find? (fun u => u.email == pyLower (pyStrip (pyOrStr e1 "")))).isSome)
    (hwrong : ∀ u, db.users.find? (fun u2 => u2.email == pyLower (pyStrip (pyOrStr e1 ""))) = some u →
      checkHash u.password_hash (pyOrStr p1 "") = false)
    (hnouser : db.users.find? (fun u => u.email == pyLower (pyStrip (pyOrStr e2 ""))) = none) :
    auth_login db checkHash e1 p1 = auth_login db checkHash e2 p2 ∧
    auth_login db checkHash e1 p1 = ⟨401, false, some "invalid_credentials", none⟩ := by
  unfold auth_login
  cases hf : db.users.find? (fun u => u.email == pyLower (pyStrip (pyOrStr e1 ""))) with
  | none => rw [hf] at hexists; simp at hexists
  | some u =>
    have hw := hwrong u hf
    simp [hf, hnouser, hw]

/-- Witness for C8: a store with one user, a hash check that rejects, a
wrong-password attempt against it and an attempt with an unknown email. -/
theorem c8_login_no_enumeration_witness :
    auth_login ⟨[], [], [], [⟨1, "n", "a@b", "h"⟩], 1, 1, 1, 0⟩ (fun _ _ => false)
        (some "a@b") (some "x") =
      auth_login ⟨[], [], [], [⟨1, "n", "a@b", "h"⟩], 1, 1, 1, 0⟩ (fun _ _ => false)
        (some "c@d") (some "y") :=
  (c8_login_no_enumeration ⟨[], [], [], [⟨1, "n", "a@b", "h"⟩], 1, 1, 1, 0⟩ (fun _ _ => false)
    (some "a@b") (some "x") (some "c@d") (some "y")
    (by decide) (fun u _ => rfl) (by decide)).1

/-! ### Claim C6 — /api/history -/

theorem history_rows_sorted (db : DB) (d : DeviceRow) :
    (history_rows db d).Pairwise (fun a b => b.created_at ≤ a.created_at) := by
  unfold history_rows
  apply List.Pairwise.sublist (List.take_sublist _ _)
  have h : List.Pairwise
      (fun a b : SavedRow =>
        (fun a b : SavedRow => decide (b.created_at ≤ a.created_at)) a b = true)
      ((db.saved.filter (fun l => l.device_id_fk == d.id)).mergeSort
        (fun a b => decide (b.created_at ≤ a.created_at))) :=
    List.sorted_mergeSort
      (fun a b c hab hbc => by
        rw [decide_eq_true_eq] at hab hbc ⊢
        omega)
      (fun a b => by
        rw [Bool.or_eq_true, decide_eq_true_eq, decide_eq_true_eq]
        omega)
      (db.saved.filter (fun l => l.device_id_fk == d.id))
  exact h.imp (fun hab => of_decide_eq_true hab)

theorem history_rows_length_le (db : DB) (d : DeviceRow) :
    (history_rows db d).length ≤ 50 :=
  List.length_take_le _ _

theorem history_rows_mem (db : DB) (d : DeviceRow) :
    ∀ l ∈ history_rows db d, l.device_id_fk = d.id := by
  intro l hl
  unfold history_rows at hl
  have h1 := List.mem_of_mem_take hl
  have h2 := (List.mergeSort_perm
      (db.saved.filter (fun l2 => l2.device_id_fk == d.id)) _).mem_iff.mp h1
  have h3 := (List.mem_filter.mp h2).2
  simpa using h3

/-- Claim C6: `/api/history` returns at most 50 entries; the rows it reads
are exactly the device's links, ordered newest first by the link's
creation timestamp; an absent or never-seen device id yields the empty
list, not an error. -/
theorem c6_history :
    (∀ db, history db none = []) ∧
    (∀ db s, db.devices.find? (fun d => d.device_id == s) = none →
      history db (some s) = []) ∧
    (∀ db did, (history db did).length ≤ 50) ∧
    (∀ db d, (history_rows db d).Pairwise (fun a b => b.created_at ≤ a.created_at) ∧
      ∀ l ∈ history_rows db d, l.device_id_fk = d.id) := by
  refine ⟨fun db => rfl, ?_, ?_, fun db d => ⟨history_rows_sorted db d, history_rows_mem db d⟩⟩
  · intro db s hf
    unfold history
    simp [hf]
  · intro db did
    unfold history
    cases did with
    | none => simp
    | some s =>
      cases hf : db.devices.find? (fun d => d.device_id == s) with
      | none => simp [hf]
      | some d =>
        simp only [hf]
        exact le_trans (List.length_filterMap_le _ _) (history_rows_length_le db d)

/-- Witness for C6 at concrete inputs: a never-seen device id on a store
with one device. -/
theorem c6_history_witness :
    history ⟨[⟨1, "d1"⟩], [], [], [], 2, 1, 1, 0⟩ (some "ghost") = [] ∧
    (history ⟨[⟨1, "d1"⟩], [], [], [], 2, 1, 1, 0⟩ (some "d1")).length ≤ 50 :=
  ⟨c6_history.2.1 ⟨[⟨1, "d1"⟩], [], [], [], 2, 1, 1, 0⟩ "ghost" (by decide),
   c6_history.2.2.1 ⟨[⟨1, "d1"⟩], [], [], [], 2, 1, 1, 0⟩ (some "d1")⟩

/-! ### Structural lemmas about the save flow -/

theorem _ensure_device_create (db : DB) (s : String) (hs : s ≠ "")
    (hf : db.devices.find? (fun d => d.device_id == s) = none) :
    _ensure_device db (some s) =
      some (⟨db.nextDevice, s⟩,
        { db with devices := db.devices ++ [⟨db.nextDevice, s⟩],
                  nextDevice := db.nextDevice + 1 }) := by
  simp [_ensure_device, hs, hf]

theorem _ensure_device_found (db : DB) (s : String) (d : DeviceRow) (hs : s ≠ "")
    (hf : db.devices.find? (fun d2 => d2.device_id == s) = some d) :
    _ensure_device db (some s) = some (d, db) := by
  simp [_ensure_device, hs, hf]

theorem _ensure_device_isSome (db : DB) (s : String) (hs : s ≠ "") :
    (_ensure_device db (some s)).isSome := by
  unfold _ensure_device
  cases hf : db.devices.find? (fun d => d.device_id == s) <;> simp [hs, hf]

theorem _ensure_device_state {db : DB} {did : Option String} {d : DeviceRow} {db1 : DB}
    (h : _ensure_device db did = some (d, db1)) :
    db1.recipes = db.recipes ∧ db1.saved = db.saved ∧ db1.users = db.users ∧
    db1.nextRecipe = db.nextRecipe ∧ db1.nextSaved = db.nextSaved ∧
    db1.clock = db.clock := by
  unfold _ensure_device at h
  cases did with
  | none => simp at h
  | some s =>
    by_cases hs : s = ""
    · simp [hs] at h
    · simp only [if_neg hs] at h
      cases hf : db.devices.find? (fun d2 => d2.device_id == s) with
      | some d2 =>
        rw [hf] at h
        simp only [Option.some.injEq, Prod.mk.injEq] at h
        rw [← h.2]
        exact ⟨rfl, rfl, rfl, rfl, rfl, rfl⟩
      | none =>
        rw [hf] at h
        simp only [Option.some.injEq, Prod.mk.injEq] at h
        rw [← h.2]
        exact ⟨rfl, rfl, rfl, rfl, rfl, rfl⟩

theorem link_phase_meta (db : DB) (d : DeviceRow) (rw : RecipeRow) (fault : StorageFault) :
    ((link_phase db d rw fault).2).recipes = db.recipes ∧
    ((link_phase db d rw fault).2).devices = db.devices := by
  simp only [link_phase]
  repeat' split
  all_goals exact ⟨rfl, rfl⟩

theorem link_phase_ok (db : DB) (d : DeviceRow) (rw : RecipeRow) :
    ((link_phase db d rw .noFault).1).status = 200 ∧
    ((link_phase db d rw .noFault).1).error = none ∧
    ((link_phase db d rw .noFault).1).saved.isSome = true := by
  simp only [link_phase]
  repeat' split
  all_goals exact ⟨rfl, rfl, rfl⟩

theorem save_recipe_phase_devices (db1 : DB) (d : DeviceRow) (rin : RecipeIn)
    (fault : StorageFault) :
    (save_recipe_phase db1 d rin fault).2.devices = db1.devices := by
  simp only [save_recipe_phase]
  repeat' split
  all_goals first
    | rfl
    | exact (link_phase_meta _ _ _ _).2

theorem save_recipe_phase_ok (db1 : DB) (d : DeviceRow) (rin : RecipeIn) :
    ((save_recipe_phase db1 d rin .noFault).1).status = 200 ∧
    ((save_recipe_phase db1 d rin .noFault).1).error = none ∧
    ((save_recipe_phase db1 d rin .noFault).1).saved.isSome = true := by
  simp only [save_recipe_phase]
  repeat' split
  all_goals exact link_phase_ok _ _ _

theorem save_noFault_ok (db : DB) (s : String) (rp : Option RecipeIn) (hs : s ≠ "") :
    (save db (some s) rp .noFault).1.status = 200 ∧
    (save db (some s) rp .noFault).1.error = none ∧
    (save db (some s) rp .noFault).1.saved.isSome = true := by
  unfold save
  cases he : _ensure_device db (some s) with
  | none =>
    exfalso
    have hsome := _ensure_device_isSome db s hs
    rw [he] at hsome
    simp at hsome
  | some pair =>
    obtain ⟨d, db1⟩ := pair
    exact save_recipe_phase_ok db1 d _

/-! ### Claim C9 — the device commit survives later failures -/

/-- Claim C9: the `Device` row is committed by `_ensure_device` before the
recipe and link phases; for a previously unseen non-empty `device_id` the
device row is in the final state under every storage fault, including a
fault that makes the rest of the save fail with a 500. -/
theorem c9_device_commit_persists :
    (∀ db s rp fault, s ≠ "" →
      db.devices.find? (fun d => d.device_id == s) = none →
      (save db (some s) rp fault).2.devices = db.devices ++ [⟨db.nextDevice, s⟩]) ∧
    (∀ s rp, s ≠ "" →
      (save db0 (some s) rp StorageFault.recipeCommitFails).1.status = 500 ∧
      (save db0 (some s) rp StorageFault.recipeCommitFails).2.devices = [⟨1, s⟩]) := by
  constructor
  · intro db s rp fault hs hf
    unfold save
    rw [_ensure_device_create db s hs hf]
    exact save_recipe_phase_devices _ _ _ _
  · intro s rp hs
    simp [save, _ensure_device, db0, save_recipe_phase, hs]

/-- Witness for C9 at concrete inputs. -/
theorem c9_device_commit_persists_witness :
    (save db0 (some "dev-9") none StorageFault.recipeCommitFails).2.devices =
      [⟨1, "dev-9"⟩] ∧
    (save db0 (some "dev-9") none StorageFault.recipeCommitFails).1.status = 500 :=
  ⟨(c9_device_commit_persists.2 "dev-9" none (by decide)).2,
   (c9_device_commit_persists.2 "dev-9" none (by decide)).1⟩

/-! ### Claim C10 — defaults for a missing or empty recipe -/

/-- Claim C10: a save with a valid device id and a missing or empty recipe
object succeeds (HTTP 200, no error, a `saved` flag) by substituting the
defaults title `"Recipe"`, desc `""`, time 20, serves 2, level `"Easy"`,
img `""` rather than rejecting with a validation error. -/
theorem c10_save_defaults :
    normalize_recipe emptyRecipeIn =
      ⟨"Recipe", "", 20, 2, "Easy", ""⟩ ∧
    (∀ rp, rp = none ∨ rp = some emptyRecipeIn →
      ∀ db s, s ≠ "" →
        (save db (some s) rp .noFault).1.status = 200 ∧
        (save db (some s) rp .noFault).1.error = none ∧
        (save db (some s) rp .noFault).1.saved.isSome = true) := by
  refine ⟨by decide, ?_⟩
  intro rp _ db s hs
  exact save_noFault_ok db s rp hs

/-- Witness for C10 at concrete inputs. -/
theorem c10_save_defaults_witness :
    (save db0 (some "dev-10") none StorageFault.noFault).1.status = 200 :=
  (c10_save_defaults.2 none (Or.inl rfl) db0 "dev-10" (by decide)).1

/-! ### Claim C1 — recipe deduplication by signature -/

/-- At most one `Recipe` row per signature. -/
def SigUnique (db : DB) : Prop :=
  db.recipes.Pairwise (fun a b => a.signature ≠ b.signature)

theorem SigUnique_append {rs : List RecipeRow} {recRow : RecipeRow}
    (h : rs.Pairwise (fun a b => a.signature ≠ b.signature))
    (hnew : ∀ a ∈ rs, a.signature ≠ recRow.signature) :
    (rs ++ [recRow]).Pairwise (fun a b => a.signature ≠ b.signature) := by
  rw [List.pairwise_append]
  refine ⟨h, List.pairwise_singleton _ _, ?_⟩
  intro a ha b hb
  rw [List.mem_singleton] at hb
  subst hb
  exact hnew a ha

theorem save_recipe_phase_SigUnique (db1 : DB) (d : DeviceRow) (rin : RecipeIn)
    (fault : StorageFault) (h : SigUnique db1) :
    SigUnique (save_recipe_phase db1 d rin fault).2 := by
  simp only [save_recipe_phase]
  split
  · unfold SigUnique
    rw [(link_phase_meta _ _ _ _).1]
    exact h
  · rename_i hf
    split
    · exact h
    all_goals
      unfold SigUnique
      rw [(link_phase_meta _ _ _ _).1]
      apply SigUnique_append h
      intro a ha hsig
      have := List.find?_eq_none.mp hf a ha
      rw [beq_iff_eq] at this
      exact this hsig

theorem save_SigUnique (db : DB) (device_id : Option String) (rp : Option RecipeIn)
    (fault : StorageFault) (h : SigUnique db) :
    SigUnique (save db device_id rp fault).2 := by
  unfold save
  cases he : _ensure_device db device_id with
  | none => exact h
  | some pair =>
    obtain ⟨d, db1⟩ := pair
    have hrec : db1.recipes = db.recipes := (_ensure_device_state he).1
    apply save_recipe_phase_SigUnique
    unfold SigUnique
    rw [hrec]
    exact h

theorem save_twice_same_device (s : String) (rin : RecipeIn) (hs : s ≠ "") :
    (save db0 (some s) (some rin) .noFault).1.saved = some true ∧
    (save db0 (some s) (some rin) .noFault).1.recipe_id = some 1 ∧
    (save (save db0 (some s) (some rin) .noFault).2 (some s) (some rin) .noFault).1.saved =
      some false ∧
    (save (save db0 (some s) (some rin) .noFault).2 (some s) (some rin) .noFault).1.message =
      some "Already saved" ∧
    (save (save db0 (some s) (some rin) .noFault).2 (some s) (some rin) .noFault).1.recipe_id =
      some 1 ∧
    (save (save db0 (some s) (some rin) .noFault).2 (some s) (some rin) .noFault).2.recipes.length =
      1 := by
  simp [save, _ensure_device, save_recipe_phase, link_phase, link_constraint_violated,
        addLink, db0, hs, List.find?]

theorem save_two_devices (s1 s2 : String) (rin : RecipeIn)
    (h1 : s1 ≠ "") (h2 : s2 ≠ "") (h12 : s1 ≠ s2) :
    (save db0 (some s1) (some rin) .noFault).1.saved = some true ∧
    (save (save db0 (some s1) (some rin) .noFault).2 (some s2) (some rin) .noFault).1.saved =
      some true ∧
    (save (save db0 (some s1) (some rin) .noFault).2 (some s2) (some rin) .noFault).2.saved.length =
      2 ∧
    (save (save db0 (some s1) (some rin) .noFault).2 (some s2) (some rin) .noFault).2.recipes.length =
      1 := by
  have hbeq : (s1 == s2) = false := beq_eq_false_iff_ne.mpr h12
  simp [save, _ensure_device, save_recipe_phase, link_phase, link_constraint_violated,
        addLink, db0, h1, h2, hbeq, List.find?]

/-- Claim C1: `save` preserves "at most one Recipe row per signature" from
the fresh database (so it holds after every sequence of saves, faulted or
not); saving the same recipe content twice for one device answers
`saved:true` then `saved:false` with "Already saved" and the same
`recipe_id`, leaving one recipe row; and saving the same content for two
different devices leaves two links but one recipe row. -/
theorem c1_recipe_dedup :
    SigUnique db0 ∧
    (∀ db device_id rp fault, SigUnique db → SigUnique (save db device_id rp fault).2) ∧
    (∀ s rin, s ≠ "" →
      (save db0 (some s) (some rin) .noFault).1.saved = some true ∧
      (save db0 (some s) (some rin) .noFault).1.recipe_id = some 1 ∧
      (save (save db0 (some s) (some rin) .noFault).2 (some s) (some rin) .noFault).1.saved =
        some false ∧
      (save (save db0 (some s) (some rin) .noFault).2 (some s) (some rin) .noFault).1.message =
        some "Already saved" ∧
      (save (save db0 (some s) (some rin) .noFault).2 (some s) (some rin) .noFault).1.recipe_id =
        some 1 ∧
      (save (save db0 (some s) (some rin) .noFault).2
        (some s) (some rin) .noFault).2.recipes.length = 1) ∧
    (∀ s1 s2 rin, s1 ≠ "" → s2 ≠ "" → s1 ≠ s2 →
      (save db0 (some s1) (some rin) .noFault).1.saved = some true ∧
      (save (save db0 (some s1) (some rin) .noFault).2 (some s2) (some rin) .noFault).1.saved =
        some true ∧
      (save (save db0 (some s1) (some rin) .noFault).2
        (some s2) (some rin) .noFault).2.saved.length = 2 ∧
      (save (save db0 (some s1) (some rin) .noFault).2
        (some s2) (some rin) .noFault).2.recipes.length = 1) :=
  ⟨List.Pairwise.nil, save_SigUnique, save_twice_same_device, save_two_devices⟩

/-- Witness for C1 at concrete inputs. -/
theorem c1_recipe_dedup_witness :
    SigUnique (save db0 (some "d1") (some emptyRecipeIn) .noFault).2 ∧
    (save (save db0 (some "d1") (some emptyRecipeIn) .noFault).2 (some "d1")
      (some emptyRecipeIn) .noFault).1.message = some "Already saved" ∧
    (save (save db0 (some "d1") (some emptyRecipeIn) .noFault).2 (some "d2")
      (some emptyRecipeIn) .noFault).2.recipes.length = 1 :=
  ⟨c1_recipe_dedup.2.1 db0 (some "d1") (some emptyRecipeIn) .noFault c1_recipe_dedup.1,
   (c1_recipe_dedup.2.2.1 "d1" emptyRecipeIn (by decide)).2.2.2.1,
   (c1_recipe_dedup.2.2.2 "d1" "d2" emptyRecipeIn (by decide) (by decide) (by decide)).2.2.2⟩

/-! ### Claim C5 — losing the race on the unique link constraint -/

/-- Claim C5 as stated is refuted on one point: the `IntegrityError`
response body is not the same as the link-already-present response — the
race path answers without a `recipe_id` field, so the response does not
match the `{saved, recipe_id}` shape of the interface table. -/
theorem c5_race_counterexample :
    (save db0 (some "d1") (some emptyRecipeIn) .raceOnLink).1 ≠
      (save (save db0 (some "d1") (some emptyRecipeIn) .noFault).2 (some "d1")
        (some emptyRecipeIn) .noFault).1 ∧
    (save db0 (some "d1") (some emptyRecipeIn) .raceOnLink).1.recipe_id = none ∧
    (save (save db0 (some "d1") (some emptyRecipeIn) .noFault).2 (some "d1")
      (some emptyRecipeIn) .noFault).1.recipe_id = some 1 := by
  refine ⟨?_, ?_, ?_⟩ <;> decide

/-- Claim C5 (amended): when the link insert trips the unique constraint
(the losing side of a race on the same `(device, recipe)` pair), the
handler converts the `IntegrityError` into an "Already saved" success
response — status 200, `saved:false`, message "Already saved", but with no
`recipe_id` field, unlike the link-already-present path — rather than
surfacing a 500 error. -/
theorem c5_race_normalized :
    (∀ db d rw,
      db.saved.find? (fun l => l.device_id_fk == d.id && l.recipe_id_fk == rw.id) = none →
      (link_phase db d rw .raceOnLink).1 =
        ⟨200, some false, some "Already saved", none, none⟩) ∧
    (∀ s rin, s ≠ "" →
      (save db0 (some s) (some rin) .raceOnLink).1 =
        ⟨200, some false, some "Already saved", none, none⟩) := by
  constructor
  · intro db d rw hnone
    simp only [link_phase, hnone]
    simp [link_constraint_violated, addLink]
  · intro s rin hs
    simp [save, _ensure_device, save_recipe_phase, link_phase, link_constraint_violated,
          addLink, db0, hs, List.find?]

/-- Witness for C5's amended theorem at concrete inputs. -/
theorem c5_race_normalized_witness :
    (save db0 (some "d5") (some emptyRecipeIn) .raceOnLink).1 =
      ⟨200, some false, some "Already saved", none, none⟩ :=
  c5_race_normalized.2 "d5" emptyRecipeIn (by decide)
